import Mathlib

/-!
Verification of the rspamd `log_helper` worker (`src/log_helper.c`) against its
natural-language specification.  The worker reads binary telemetry frames from a
socketpair and fans each decoded event out to registered Lua handler callbacks.

The embedding models:
* the wire-frame decode and length check of `rspamd_log_helper_read`;
* the `DL_FOREACH` dispatch over the registered Lua scripts, with `lua_pcall`
  failure isolation;
* the event-loop behaviour of the `EV_READ | EV_PERSIST` read event;
* the socketpair establishment fallback of `start_log_helper`;
* the Lua value-stack discipline of one read-dispatch cycle.

Bytes are modelled as natural numbers; multi-byte fields are read little-endian,
matching the `memcpy`-based (host-endian) deserialization on the usual platforms.
-/

namespace LogHelper

/-- Modelled from the spec: `sizeof (struct rspamd_protocol_log_message_sum)`.
The struct definition lives in a protocol header outside this slice; the spec
gives the header as `{ symbol_count: uint32, score: float64,
required_score: float64, settings_id: uint32 }`, which under standard C
alignment on a 64-bit platform occupies 32 bytes. -/
def headerSize : Nat := 32

/-- Modelled from the spec: `sizeof (struct rspamd_protocol_log_symbol_result)`.
The spec gives a symbol result as `{ id: int32, score: float64 }`, which under
standard C alignment occupies 16 bytes. -/
def symbolResultSize : Nat := 16

/-- Size of the fixed stack read buffer `guchar buf[1024]` in
`rspamd_log_helper_read`. -/
def readBufSize : Nat := 1024

/-- Little-endian read of a 32-bit field at byte offset `off`, as done by
`memcpy (&n, buf, sizeof (n))` on a little-endian host.  Out-of-range bytes
default to 0 (never exercised on the paths the code takes). -/
def readU32LE (b : List Nat) (off : Nat) : Nat :=
  b.getD off 0 + b.getD (off + 1) 0 * 256 + b.getD (off + 2) 0 * 65536 +
    b.getD (off + 3) 0 * 16777216

/-- Little-endian read of a 64-bit field at byte offset `off`.  The two
`float64` score fields are carried as their raw 8-byte patterns, since the code
only `memcpy`s them and pushes them to Lua unmodified. -/
def readU64LE (b : List Nat) (off : Nat) : Nat :=
  readU32LE b off + readU32LE b (off + 4) * 4294967296

/-- One `struct rspamd_protocol_log_symbol_result`: a symbol id and the raw bit
pattern of its score. -/
structure SymbolResult where
  id : Nat
  score : Nat
deriving Repr, DecidableEq

/-- The decoded `struct rspamd_protocol_log_message_sum`: header fields plus the
flexible array of symbol results. -/
structure LogMessageSum where
  nresults : Nat
  score : Nat
  requiredScore : Nat
  settingsId : Nat
  results : List SymbolResult
deriving Repr, DecidableEq

/-- Field offsets modelled from the spec wire format: within one trailing
symbol-result record, `id` sits at offset 0 and `score` at offset 8. -/
def parseResult (b : List Nat) (i : Nat) : SymbolResult :=
  { id := readU32LE b (headerSize + i * symbolResultSize)
    score := readU64LE b (headerSize + i * symbolResultSize + 8) }

/-- The `n` trailing symbol results, in the order they appear in the frame
(the C code copies `sm->results[i]` for `i = 0 .. n-1`). -/
def parseResults (b : List Nat) (n : Nat) : List SymbolResult :=
  (List.range n).map (parseResult b)

/-- Decode the whole message: header field offsets modelled from the spec wire
format (`symbol_count` at 0, `score` at 8, `required_score` at 16,
`settings_id` at 24). -/
def parseSum (b : List Nat) (n : Nat) : LogMessageSum :=
  { nresults := n
    score := readU64LE b 8
    requiredScore := readU64LE b 16
    settingsId := readU32LE b 24
    results := parseResults b n }

/-- One registered Lua script (`struct rspamd_worker_lua_script`): its registry
reference, plus whether its `lua_pcall` invocation fails (abstracting the
behaviour of the external Lua handler body). -/
structure Handler where
  cbref : Nat
  fails : Bool
deriving Repr, DecidableEq

/-- One handler invocation: the callback invoked and the five positional
arguments pushed for it (score, required score, the ordered result pairs, the
config userdata being a constant is omitted, and the settings id). -/
structure Invocation where
  cbref : Nat
  score : Nat
  requiredScore : Nat
  results : List SymbolResult
  settingsId : Nat
deriving Repr, DecidableEq

/-- Log lines emitted by `rspamd_log_helper_read`. -/
inductive LogLine where
  | warnBadLength (announced available : Nat)
  | warnReadError
  | errHandler (cbref : Nat)
deriving Repr, DecidableEq

/-- The invocation delivered to one handler for one decoded message:
`lua_pushnumber (sm->score)`, `lua_pushnumber (sm->required_score)`, the table
of `(id, score)` pairs built from `sm->results`, and
`lua_pushnumber (sm->settings_id)`. -/
def mkInvocation (sc : Handler) (sm : LogMessageSum) : Invocation :=
  { cbref := sc.cbref
    score := sm.score
    requiredScore := sm.requiredScore
    results := sm.results
    settingsId := sm.settingsId }

/-- The `DL_FOREACH (ctx->scripts, sc)` loop: every script is invoked with the
same decoded message; a failing `lua_pcall` logs `msg_err` with the Lua
diagnostic (and pops the error value) and the loop continues with the next
script unconditionally. -/
def dispatchEvent (scripts : List Handler) (sm : LogMessageSum) :
    List Invocation × List LogLine :=
  match scripts with
  | [] => ([], [])
  | sc :: rest =>
    let tail := dispatchEvent rest sm
    (mkInvocation sc sm :: tail.1,
     (if sc.fails then [LogLine.errHandler sc.cbref] else []) ++ tail.2)

/-- Result of one `read (fd, buf, sizeof (buf))` call: either `r ≥ 0` bytes, or
`r = -1` with some errno.  The `transient` flag records whether the errno
indicates a transient condition; the C code never inspects errno beyond
formatting it into the warning. -/
inductive ReadResult where
  | bytes (b : List Nat)
  | readError (transient : Bool)
deriving Repr, DecidableEq

/-- Control-flow outcome of one `rspamd_log_helper_read` activation. -/
inductive ReadOutcome where
  | dispatched (sm : LogMessageSum)
  | badLength (announced available : Nat)
  | tooShort
  | readError
deriving Repr, DecidableEq

/-- Observable effect of one `rspamd_log_helper_read` activation: which branch
was taken, the handler invocations performed, and the log lines emitted. -/
structure ReadEffect where
  outcome : ReadOutcome
  invocations : List Invocation
  logs : List LogLine
deriving Repr, DecidableEq

/-- Direct translation of `rspamd_log_helper_read` (src/log_helper.c:74-134):
if `r >= sizeof (struct rspamd_protocol_log_message_sum)` the declared count
`n` is read from the first four bytes and compared against
`(r - sizeof (*sm)) / sizeof (struct rspamd_protocol_log_symbol_result)`
(integer division); on mismatch a warning is logged and nothing dispatched;
on match the message is decoded and dispatched to every script.  `r == -1`
logs a warning.  A short read (`0 ≤ r < sizeof (*sm)`) matches neither branch
and is silently ignored. -/
def rspamd_log_helper_read (scripts : List Handler) (r : ReadResult) : ReadEffect :=
  match r with
  | .readError _ => ⟨.readError, [], [LogLine.warnReadError]⟩
  | .bytes b =>
    if headerSize ≤ b.length then
      let n := readU32LE b 0
      let avail := (b.length - headerSize) / symbolResultSize
      if n ≠ avail then
        ⟨.badLength n avail, [], [LogLine.warnBadLength n avail]⟩
      else
        let sm := parseSum b n
        let d := dispatchEvent scripts sm
        ⟨.dispatched sm, d.1, d.2⟩
    else
      ⟨.tooShort, [], []⟩

/-- A single `read` on the datagram/seqpacket channel delivers one message
truncated to the fixed buffer: `read (fd, buf, 1024)` returns at most
`sizeof (buf)` bytes of the sent frame, with no reassembly. -/
def channelRead (frame : List Nat) : List Nat :=
  frame.take readBufSize

/-- The sequence of handler invocations produced by processing a sequence of
reads: the read event is `EV_PERSIST`, so every readiness notification runs
`rspamd_log_helper_read` once and the loop continues with the next read. -/
def processInvocations (scripts : List Handler) : List ReadResult → List Invocation
  | [] => []
  | r :: rs => (rspamd_log_helper_read scripts r).invocations ++ processInvocations scripts rs

/-- Dispatch-loop state from the spec state machine (restricted to the steady
states the read handler can influence). -/
inductive LoopState where
  | running
  | stopped
deriving Repr, DecidableEq

/-- Effect of one read on the loop state.  `rspamd_log_helper_read` contains no
`event_del`, `event_base_loopbreak` or `exit` call on any branch, and the event
is registered `EV_READ | EV_PERSIST`, so no read outcome — success, short read,
bad length or `r == -1` — changes the loop state; termination comes only from
outside the read handler (signal handling in the worker framework). -/
def loopStep (s : LoopState) (_ : ReadResult) : LoopState :=
  match s with
  | .running => .running
  | .stopped => .stopped

/-- The acceptance condition actually enforced by the code on a received buffer
`b`: long enough for the header, and the declared count equals the quotient
`(r - header_size) / symbol_result_size` (remainder discarded). -/
def validFrame (b : List Nat) : Prop :=
  headerSize ≤ b.length ∧ readU32LE b 0 = (b.length - headerSize) / symbolResultSize

instance (b : List Nat) : Decidable (validFrame b) := by
  unfold validFrame; infer_instance

/-! ### Channel establishment (`start_log_helper`, src/log_helper.c:151-190) -/

/-- The two socket types tried by `start_log_helper`. -/
inductive SockType where
  | seqpacket
  | dgram
deriving Repr, DecidableEq

/-- Host environment relevant to channel establishment: whether the platform
defines `HAVE_SOCK_SEQPACKET`, and whether each `socketpair` call succeeds. -/
structure Platform where
  haveSockSeqpacket : Bool
  seqpacketOk : Bool
  dgramOk : Bool
deriving Repr, DecidableEq

/-- Outcome of `start_log_helper` up to the registration handshake: either the
worker reaches `rspamd_srv_send_command` (one registration attempt) with the
channel of the given type, or it called `exit` with the given status having
made the given number of registration attempts. -/
inductive StartOutcome where
  | running (transport : SockType) (registrations : Nat)
  | exited (status : Nat) (registrations : Nat)
deriving Repr, DecidableEq

/-- Value of the C constant `EXIT_SUCCESS`. -/
def EXIT_SUCCESS : Nat := 0

/-- The sequence of `socketpair` attempts: `r = -1` initially; under
`HAVE_SOCK_SEQPACKET` the `SOCK_SEQPACKET` pair is tried first; the
`SOCK_DGRAM` call sits behind `r == -1 &&` and so is evaluated exactly when the
first attempt was absent or failed. -/
def establishAttempts (p : Platform) : List SockType :=
  (if p.haveSockSeqpacket then [SockType.seqpacket] else []) ++
    (if p.haveSockSeqpacket && p.seqpacketOk then [] else [SockType.dgram])

/-- Translation of `start_log_helper`: if both `socketpair` attempts fail the
worker logs and calls `exit (EXIT_SUCCESS)` before `rspamd_srv_send_command`
is ever reached; otherwise it proceeds to send the single
`RSPAMD_SRV_LOG_PIPE` registration command. -/
def start_log_helper (p : Platform) : StartOutcome :=
  if p.haveSockSeqpacket && p.seqpacketOk then .running .seqpacket 1
  else if p.dgramOk then .running .dgram 1
  else .exited EXIT_SUCCESS 0

/-! ### Lua value-stack discipline of one read-dispatch cycle

Each Lua API call is modelled by its effect on the stack depth, and the calls
are composed in exactly the order the C code makes them. -/

/-- `lua_rawgeti` pushes the fetched value. -/
def lua_rawgeti (d : Int) : Int := d + 1

/-- `lua_pushnumber` pushes one value. -/
def lua_pushnumber (d : Int) : Int := d + 1

/-- `lua_createtable` pushes the new table. -/
def lua_createtable (d : Int) : Int := d + 1

/-- `lua_rawseti` pops the value being stored. -/
def lua_rawseti (d : Int) : Int := d - 1

/-- `lua_newuserdata` pushes the new userdata. -/
def lua_newuserdata (d : Int) : Int := d + 1

/-- `rspamd_lua_setclass` sets the metatable of the value in place, leaving the
stack depth unchanged. -/
def rspamd_lua_setclass (d : Int) : Int := d

/-- `lua_pop (L, k)` removes `k` values. -/
def lua_pop (k : Nat) (d : Int) : Int := d - k

/-- `lua_pcall (L, nargs, nresults, 0)` pops the function and its `nargs`
arguments; on success it pushes `nresults` results, on failure it pushes the
single error value. -/
def lua_pcall (nargs nresults : Nat) (fails : Bool) (d : Int) : Int :=
  if fails then d - (nargs + 1) + 1 else d - (nargs + 1) + nresults

/-- One iteration of the `for (i = 0; i < n; i ++)` body: create the pair
table, push the id, store it at index 1, push the score, store it at index 2,
then store the pair table into the outer table at index `i + 1`. -/
def pushSymbolEntry (d : Int) : Int :=
  lua_rawseti (lua_rawseti (lua_pushnumber (lua_rawseti (lua_pushnumber (lua_createtable d)))))

/-- The `for` loop running `i` iterations of `pushSymbolEntry`. -/
def symbolLoop (d : Int) : Nat → Int
  | 0 => d
  | i + 1 => pushSymbolEntry (symbolLoop d i)

/-- Stack evolution of one handler invocation: fetch the callback, push score
and required score, build the `n`-entry result table, push the config userdata
(classed in place), push the settings id, `lua_pcall` with 5 arguments and 0
results, and on failure pop the error value. -/
def invokeHandlerStack (n : Nat) (sc : Handler) (d : Int) : Int :=
  let d1 := lua_rawgeti d
  let d2 := lua_pushnumber d1
  let d3 := lua_pushnumber d2
  let d4 := symbolLoop (lua_createtable d3) n
  let d5 := rspamd_lua_setclass (lua_newuserdata d4)
  let d6 := lua_pushnumber d5
  let d7 := lua_pcall 5 0 sc.fails d6
  if sc.fails then lua_pop 1 d7 else d7

/-- Stack evolution of the whole `DL_FOREACH` dispatch. -/
def dispatchStack (scripts : List Handler) (n : Nat) (d : Int) : Int :=
  scripts.foldl (fun acc sc => invokeHandlerStack n sc acc) d

/-- Stack evolution of one complete `rspamd_log_helper_read` activation: the
Lua stack is touched only on the successfully-decoded branch. -/
def readStack (scripts : List Handler) (r : ReadResult) (d : Int) : Int :=
  match r with
  | .readError _ => d
  | .bytes b =>
    if headerSize ≤ b.length then
      let n := readU32LE b 0
      if n ≠ (b.length - headerSize) / symbolResultSize then d
      else dispatchStack scripts n d
    else d

/-! ### Helper lemmas -/

/-- The first components of `dispatchEvent` are one invocation per registered
script, in registry order, independent of which scripts fail. -/
theorem dispatchEvent_fst (scripts : List Handler) (sm : LogMessageSum) :
    (dispatchEvent scripts sm).1 = scripts.map (fun sc => mkInvocation sc sm) := by
  induction scripts with
  | nil => rfl
  | cons sc rest ih => simp [dispatchEvent, ih]

/-- Every failing script contributes its `msg_err` log line. -/
theorem dispatchEvent_snd_mem (scripts : List Handler) (sm : LogMessageSum)
    (sc : Handler) (hmem : sc ∈ scripts) (hf : sc.fails = true) :
    LogLine.errHandler sc.cbref ∈ (dispatchEvent scripts sm).2 := by
  induction scripts with
  | nil => cases hmem
  | cons a rest ih =>
    rcases List.mem_cons.mp hmem with h | h
    · subst h
      simp [dispatchEvent, hf]
    · have htail := ih h
      simp only [dispatchEvent]
      exact List.mem_append_right _ htail

/-- On a buffer passing the length check, `rspamd_log_helper_read` decodes the
message and dispatches it to every script. -/
theorem read_dispatches (scripts : List Handler) (b : List Nat) (h : validFrame b) :
    rspamd_log_helper_read scripts (.bytes b) =
      ⟨.dispatched (parseSum b (readU32LE b 0)),
       (dispatchEvent scripts (parseSum b (readU32LE b 0))).1,
       (dispatchEvent scripts (parseSum b (readU32LE b 0))).2⟩ := by
  obtain ⟨h1, h2⟩ := h
  simp [rspamd_log_helper_read, h1, h2]

/-- On a buffer failing the count-vs-length check, `rspamd_log_helper_read`
only logs the bad-length warning. -/
theorem read_badLength (scripts : List Handler) (b : List Nat)
    (hlen : headerSize ≤ b.length)
    (hne : readU32LE b 0 ≠ (b.length - headerSize) / symbolResultSize) :
    rspamd_log_helper_read scripts (.bytes b) =
      ⟨.badLength (readU32LE b 0) ((b.length - headerSize) / symbolResultSize), [],
       [LogLine.warnBadLength (readU32LE b 0)
          ((b.length - headerSize) / symbolResultSize)]⟩ := by
  simp [rspamd_log_helper_read, hlen, hne]

/-- Reading a 4-byte field at offset 0 is unaffected by truncation to at least
4 bytes. -/
theorem getD_take_of_lt (l : List Nat) (k i : Nat) (d : Nat) (h : i < k) :
    (l.take k).getD i d = l.getD i d := by
  simp [List.getD_eq_getElem?_getD, List.getElem?_take_of_lt h]

theorem readU32LE_take (b : List Nat) (k : Nat) (h : 3 < k) :
    readU32LE (b.take k) 0 = readU32LE b 0 := by
  unfold readU32LE
  rw [getD_take_of_lt _ _ _ _ (by omega), getD_take_of_lt _ _ _ _ (by omega),
    getD_take_of_lt _ _ _ _ (by omega), getD_take_of_lt _ _ _ _ (by omega)]

theorem getD_map_range (f : Nat → SymbolResult) (n i : Nat) (d : SymbolResult)
    (h : i < n) :
    ((List.range n).map f).getD i d = f i := by
  have hlen : i < ((List.range n).map f).length := by simpa using h
  rw [List.getD_eq_getElem?_getD, List.getElem?_eq_getElem hlen]
  simp

/-- One iteration of the symbol-table loop leaves the stack depth unchanged. -/
theorem pushSymbolEntry_eq (d : Int) : pushSymbolEntry d = d := by
  simp [pushSymbolEntry, lua_rawseti, lua_pushnumber, lua_createtable]

theorem symbolLoop_eq (d : Int) (n : Nat) : symbolLoop d n = d := by
  induction n with
  | zero => rfl
  | succ k ih => rw [symbolLoop, ih, pushSymbolEntry_eq]

/-- One handler invocation leaves the stack depth unchanged, whether or not the
`lua_pcall` fails. -/
theorem invokeHandlerStack_eq (n : Nat) (sc : Handler) (d : Int) :
    invokeHandlerStack n sc d = d := by
  cases hf : sc.fails <;>
    simp [invokeHandlerStack, symbolLoop_eq, lua_rawgeti, lua_pushnumber,
      lua_createtable, lua_newuserdata, rspamd_lua_setclass, lua_pcall,
      lua_pop, hf] <;> omega

theorem dispatchStack_eq (scripts : List Handler) (n : Nat) (d : Int) :
    dispatchStack scripts n d = d := by
  induction scripts generalizing d with
  | nil => rfl
  | cons sc rest ih =>
    show dispatchStack rest n (invokeHandlerStack n sc d) = d
    rw [invokeHandlerStack_eq, ih]

/-- The read callback never changes the loop state. -/
theorem foldl_loopStep_running (rs : List ReadResult) :
    List.foldl loopStep LoopState.running rs = LoopState.running := by
  induction rs with
  | nil => rfl
  | cons r rest ih => simpa [loopStep] using ih

/-! ### Claim theorems -/

/-- A 49-byte buffer declaring one symbol result: `49 - 32 = 17` is not a
multiple of 16, yet `17 / 16 = 1` matches the declared count. -/
def c1buf : List Nat := [1, 0, 0, 0] ++ List.replicate 45 0

/-- Claim C1, counterexample: a frame whose extra length has a nonzero
remainder modulo `symbol_result_size` but whose quotient matches the declared
count is accepted and dispatched, not rejected as `Invalid`. -/
theorem C1_counterexample :
    (c1buf.length - headerSize) % symbolResultSize ≠ 0 ∧
    (rspamd_log_helper_read [⟨7, false⟩] (.bytes c1buf)).outcome =
      ReadOutcome.dispatched (parseSum c1buf 1) ∧
    (rspamd_log_helper_read [⟨7, false⟩] (.bytes c1buf)).invocations ≠ [] := by
  decide

/-- Claim C1 (amended): for a buffer of length at least `header_size`, the
frame is rejected — with a bad-length warning and no handler invocation —
exactly when the integer-division quotient
`(length - header_size) / symbol_result_size` differs from the declared count;
a nonzero remainder with a matching quotient is tolerated. -/
theorem C1_quotient_mismatch_invalid (scripts : List Handler) (b : List Nat)
    (hlen : headerSize ≤ b.length)
    (hne : readU32LE b 0 ≠ (b.length - headerSize) / symbolResultSize) :
    rspamd_log_helper_read scripts (.bytes b) =
      ⟨.badLength (readU32LE b 0) ((b.length - headerSize) / symbolResultSize), [],
       [LogLine.warnBadLength (readU32LE b 0)
          ((b.length - headerSize) / symbolResultSize)]⟩ :=
  read_badLength scripts b hlen hne

/-- Claim C1, witness: a 32-byte buffer declaring a huge count is rejected
with no invocation. -/
theorem C1_quotient_mismatch_witness :
    headerSize ≤ (List.replicate 32 5 : List Nat).length ∧
    readU32LE (List.replicate 32 5) 0 ≠
      ((List.replicate 32 5 : List Nat).length - headerSize) / symbolResultSize ∧
    (rspamd_log_helper_read [] (.bytes (List.replicate 32 5))).invocations = [] := by
  refine ⟨by decide, by decide, ?_⟩
  rw [C1_quotient_mismatch_invalid [] (List.replicate 32 5) (by decide) (by decide)]

/-- Claim C2: a well-formed frame whose length is exactly
`header_size + n * symbol_result_size` for the declared count `n` decodes
successfully; the decoded `results` sequence has exactly `n` elements, the
`i`-th being the `i`-th `(id, score)` pair of the frame, and every script is
invoked with that event. -/
theorem C2_wellformed_decodes (scripts : List Handler) (b : List Nat)
    (hlen : b.length = headerSize + readU32LE b 0 * symbolResultSize) :
    (rspamd_log_helper_read scripts (.bytes b)).outcome =
      ReadOutcome.dispatched (parseSum b (readU32LE b 0)) ∧
    (parseSum b (readU32LE b 0)).results.length = readU32LE b 0 ∧
    (∀ i, i < readU32LE b 0 →
      (parseSum b (readU32LE b 0)).results.getD i ⟨0, 0⟩ = parseResult b i) ∧
    (rspamd_log_helper_read scripts (.bytes b)).invocations =
      scripts.map (fun sc => mkInvocation sc (parseSum b (readU32LE b 0))) := by
  have hv : validFrame b := by
    refine ⟨by omega, ?_⟩
    rw [hlen, Nat.add_sub_cancel_left, Nat.mul_div_cancel _ (by decide : 0 < symbolResultSize)]
  rw [read_dispatches scripts b hv]
  refine ⟨rfl, ?_, ?_, ?_⟩
  · simp [parseSum, parseResults]
  · intro i hi
    simpa [parseSum, parseResults] using getD_map_range (parseResult b) _ i ⟨0, 0⟩ hi
  · exact dispatchEvent_fst scripts _

/-- A well-formed one-symbol frame: 48 = 32 + 1 * 16 bytes. -/
def c2buf : List Nat := [1, 0, 0, 0] ++ List.replicate 44 0

/-- Claim C2, witness at a concrete one-symbol frame with one (failing)
registered handler. -/
theorem C2_wellformed_witness :
    c2buf.length = headerSize + readU32LE c2buf 0 * symbolResultSize ∧
    ((rspamd_log_helper_read [⟨3, true⟩] (.bytes c2buf)).outcome =
        ReadOutcome.dispatched (parseSum c2buf (readU32LE c2buf 0)) ∧
      (parseSum c2buf (readU32LE c2buf 0)).results.length = readU32LE c2buf 0 ∧
      (∀ i, i < readU32LE c2buf 0 →
        (parseSum c2buf (readU32LE c2buf 0)).results.getD i ⟨0, 0⟩ =
          parseResult c2buf i) ∧
      (rspamd_log_helper_read [⟨3, true⟩] (.bytes c2buf)).invocations =
        [⟨3, true⟩].map (fun sc => mkInvocation sc (parseSum c2buf (readU32LE c2buf 0)))) :=
  ⟨by decide, C2_wellformed_decodes [⟨3, true⟩] c2buf (by decide)⟩

/-- Claim C3, counterexample: a 3-byte buffer is shorter than the header, is
rejected with no dispatch — but the code logs nothing at all on this path
(the `r == -1` branch is the only other logging branch), contradicting the
claim that the condition is logged as a warning. -/
theorem C3_counterexample :
    ([0, 0, 0] : List Nat).length < headerSize ∧
    rspamd_log_helper_read [⟨7, false⟩] (.bytes [0, 0, 0]) =
      ⟨.tooShort, [], []⟩ := by
  decide

/-- Claim C3 (amended): a buffer shorter than `header_size` is rejected, no
handler is invoked and nothing is fatal, but the condition is silently
ignored — no warning is logged (only `r == -1` produces a warning). -/
theorem C3_short_silent (scripts : List Handler) (b : List Nat)
    (h : b.length < headerSize) :
    rspamd_log_helper_read scripts (.bytes b) = ⟨.tooShort, [], []⟩ := by
  simp only [rspamd_log_helper_read]
  rw [if_neg (by omega)]

/-- Claim C3, witness at a concrete 3-byte buffer. -/
theorem C3_short_silent_witness :
    ([0, 0, 0] : List Nat).length < headerSize ∧
    rspamd_log_helper_read [⟨1, true⟩] (.bytes [0, 0, 0]) = ⟨.tooShort, [], []⟩ :=
  ⟨by decide, C3_short_silent [⟨1, true⟩] [0, 0, 0] (by decide)⟩

/-- Claim C10: every read-dispatch cycle leaves the Lua value stack balanced:
for any registered scripts, any read result (valid frame, malformed frame or
read error) and any pattern of `lua_pcall` failures, the stack depth after the
cycle equals the depth before it. -/
theorem C10_stack_balanced (scripts : List Handler) (r : ReadResult) (d : Int) :
    readStack scripts r d = d := by
  cases r with
  | readError t => rfl
  | bytes b =>
    simp only [readStack]
    by_cases h1 : headerSize ≤ b.length
    · rw [if_pos h1]
      by_cases h2 : readU32LE b 0 ≠ (b.length - headerSize) / symbolResultSize
      · rw [if_pos h2]
      · rw [if_neg h2, dispatchStack_eq]
    · rw [if_neg h1]

/-- Claim C4: if script `sc` in the registry fails, every script — including
those after `sc` — is still invoked with the same event, the failure is
logged with the Lua diagnostic, and the loop goes on to process the next
frame. -/
theorem C4_handler_isolation (scripts : List Handler) (sm : LogMessageSum)
    (sc : Handler) (hmem : sc ∈ scripts) (hf : sc.fails = true) :
    (dispatchEvent scripts sm).1 = scripts.map (fun h => mkInvocation h sm) ∧
    LogLine.errHandler sc.cbref ∈ (dispatchEvent scripts sm).2 ∧
    ∀ r rs, processInvocations scripts (r :: rs) =
      (rspamd_log_helper_read scripts r).invocations ++ processInvocations scripts rs :=
  ⟨dispatchEvent_fst scripts sm, dispatchEvent_snd_mem scripts sm sc hmem hf,
    fun _ _ => rfl⟩

/-- Claim C4, witness: first of two handlers fails; the second is still
invoked and the failure is logged. -/
theorem C4_handler_isolation_witness :
    (⟨1, true⟩ : Handler) ∈ ([⟨1, true⟩, ⟨2, false⟩] : List Handler) ∧
    (⟨1, true⟩ : Handler).fails = true ∧
    (dispatchEvent [⟨1, true⟩, ⟨2, false⟩] ⟨0, 0, 0, 0, []⟩).1 =
      ([⟨1, true⟩, ⟨2, false⟩] : List Handler).map
        (fun h => mkInvocation h ⟨0, 0, 0, 0, []⟩) ∧
    LogLine.errHandler 1 ∈ (dispatchEvent [⟨1, true⟩, ⟨2, false⟩] ⟨0, 0, 0, 0, []⟩).2 := by
  refine ⟨by decide, rfl, ?_, ?_⟩
  · exact (C4_handler_isolation [⟨1, true⟩, ⟨2, false⟩] ⟨0, 0, 0, 0, []⟩ ⟨1, true⟩
      (by decide) rfl).1
  · exact (C4_handler_isolation [⟨1, true⟩, ⟨2, false⟩] ⟨0, 0, 0, 0, []⟩ ⟨1, true⟩
      (by decide) rfl).2.1

/-- Dispatching a list of valid frames produces one invocation per script per
frame, frames outermost, scripts in registry order. -/
theorem processInvocations_valid (scripts : List Handler) (bs : List (List Nat)) :
    (∀ b ∈ bs, validFrame b) →
      processInvocations scripts (bs.map ReadResult.bytes) =
        bs.flatMap (fun b =>
          scripts.map fun sc => mkInvocation sc (parseSum b (readU32LE b 0))) := by
  induction bs with
  | nil => intro _; rfl
  | cons b rest ih =>
    intro hv
    have hb := hv b (List.mem_cons_self b rest)
    show (rspamd_log_helper_read scripts (.bytes b)).invocations ++
        processInvocations scripts (rest.map ReadResult.bytes) = _
    rw [read_dispatches scripts b hb, ih (fun x hx => hv x (List.mem_cons_of_mem _ hx)),
      List.flatMap_cons]
    congr 1
    exact dispatchEvent_fst scripts _

/-- Claim C5: for a sequence of valid frames, each registered handler is
invoked once per frame, in frame-receipt order (frames outermost, registry
order within a frame), independent of which handlers fail; in particular the
total number of invocations is `frames × handlers`. -/
theorem C5_frames_in_order (scripts : List Handler) (bs : List (List Nat))
    (hv : ∀ b ∈ bs, validFrame b) :
    processInvocations scripts (bs.map ReadResult.bytes) =
      bs.flatMap (fun b =>
        scripts.map fun sc => mkInvocation sc (parseSum b (readU32LE b 0))) ∧
    (processInvocations scripts (bs.map ReadResult.bytes)).length =
      bs.length * scripts.length := by
  have key := processInvocations_valid scripts bs hv
  refine ⟨key, ?_⟩
  rw [key]
  clear key hv
  induction bs with
  | nil => simp
  | cons b rest ih =>
    simp only [List.flatMap_cons, List.length_append, List.length_map, ih,
      List.length_cons]
    ring

/-- A minimal valid frame: 32 zero bytes, declared count 0. -/
def c5buf : List Nat := List.replicate 32 0

/-- Claim C5, witness: two valid frames, one failing handler, two invocations. -/
theorem C5_frames_in_order_witness :
    (∀ b ∈ [c5buf, c5buf], validFrame b) ∧
    (processInvocations [⟨1, true⟩] ([c5buf, c5buf].map ReadResult.bytes) =
        [c5buf, c5buf].flatMap
          (fun b => [⟨1, true⟩].map fun sc => mkInvocation sc (parseSum b (readU32LE b 0))) ∧
      (processInvocations [⟨1, true⟩] ([c5buf, c5buf].map ReadResult.bytes)).length =
        [c5buf, c5buf].length * ([⟨1, true⟩] : List Handler).length) :=
  ⟨by decide, C5_frames_in_order [⟨1, true⟩] [c5buf, c5buf] (by decide)⟩

/-- Claim C6: channel establishment tries `SOCK_SEQPACKET` first (when the
platform has it), falls back to `SOCK_DGRAM` exactly when the seqpacket
attempt is absent or fails, and when every attempt fails the worker exits with
`EXIT_SUCCESS` having made zero registration attempts. -/
theorem C6_establish (p : Platform) :
    (p.haveSockSeqpacket = true → (establishAttempts p).head? = some SockType.seqpacket) ∧
    (p.haveSockSeqpacket = true → p.seqpacketOk = true →
      SockType.dgram ∉ establishAttempts p) ∧
    ((p.haveSockSeqpacket = true ∧ p.seqpacketOk = true) ∨
      SockType.dgram ∈ establishAttempts p) ∧
    (start_log_helper p = .exited EXIT_SUCCESS 0 ↔
      ¬(p.haveSockSeqpacket = true ∧ p.seqpacketOk = true) ∧ p.dgramOk = false) := by
  obtain ⟨a, b, c⟩ := p
  cases a <;> cases b <;> cases c <;> decide

/-- Claim C6, witness: seqpacket available but failing, dgram failing — the
worker exits successfully with zero registrations, having attempted the
dgram fallback. -/
theorem C6_establish_witness :
    start_log_helper ⟨true, false, false⟩ = .exited EXIT_SUCCESS 0 ∧
    SockType.dgram ∈ establishAttempts ⟨true, false, false⟩ := by
  have h := C6_establish ⟨true, false, false⟩
  exact ⟨h.2.2.2.mpr (by decide), h.2.2.1.resolve_left (by decide)⟩

/-- Claim C7, counterexample: after a read error whose errno indicates a
permanent (non-transient) condition, the loop state is still `running` and the
next frame is read, decoded and dispatched — the read handler never exits the
`Running` state, contradicting the claimed shutdown on permanent errors. -/
theorem C7_counterexample :
    loopStep LoopState.running (ReadResult.readError false) = LoopState.running ∧
    processInvocations [⟨7, false⟩]
        [ReadResult.readError false, ReadResult.bytes c5buf] =
      [mkInvocation ⟨7, false⟩ (parseSum c5buf 0)] := by
  decide

/-- Claim C7 (amended): no read outcome terminates the dispatch loop: the
event is persistent and `rspamd_log_helper_read` has no loop-exit path, so
after any sequence of reads — errors of any kind included — the state is
still `Running` and each subsequent read is processed normally; loop
termination comes only from outside the read handler. -/
theorem C7_read_never_stops_loop (scripts : List Handler) (r : ReadResult)
    (rs : List ReadResult) :
    List.foldl loopStep LoopState.running (r :: rs) = LoopState.running ∧
    processInvocations scripts (r :: rs) =
      (rspamd_log_helper_read scripts r).invocations ++ processInvocations scripts rs :=
  ⟨foldl_loopStep_running _, rfl⟩

/-- Claim C8: when the full encoded event is larger than the 1024-byte read
buffer, a single read delivers at most 1024 bytes, the truncated frame
necessarily fails the count-vs-length check, and the event is discarded with a
warning and no handler invocation. -/
theorem C8_oversized_truncated (scripts : List Handler) (frame : List Nat)
    (hlen : frame.length = headerSize + readU32LE frame 0 * symbolResultSize)
    (hbig : readBufSize < frame.length) :
    (channelRead frame).length ≤ readBufSize ∧
    rspamd_log_helper_read scripts (.bytes (channelRead frame)) =
      ⟨.badLength (readU32LE frame 0) ((readBufSize - headerSize) / symbolResultSize), [],
       [LogLine.warnBadLength (readU32LE frame 0)
          ((readBufSize - headerSize) / symbolResultSize)]⟩ := by
  have htake : (channelRead frame).length = readBufSize := by
    simp only [channelRead, List.length_take]
    omega
  have hn : readU32LE (channelRead frame) 0 = readU32LE frame 0 :=
    readU32LE_take frame readBufSize (by decide)
  have hne : readU32LE frame 0 ≠ (readBufSize - headerSize) / symbolResultSize := by
    have h16 : readBufSize < headerSize + readU32LE frame 0 * symbolResultSize := by
      omega
    simp only [readBufSize, headerSize, symbolResultSize] at h16 ⊢
    omega
  have hrd := read_badLength scripts (channelRead frame)
    (by rw [htake]; decide)
    (by rw [hn, htake]; exact hne)
  rw [hn, htake] at hrd
  exact ⟨le_of_eq htake, hrd⟩

/-- An oversized frame: count 63, so 32 + 63 · 16 = 1040 > 1024 bytes. -/
def c8frame : List Nat := [63, 0, 0, 0] ++ List.replicate 1036 0

set_option maxRecDepth 100000 in
/-- Claim C8, witness at a concrete 1040-byte frame. -/
theorem C8_oversized_witness :
    c8frame.length = headerSize + readU32LE c8frame 0 * symbolResultSize ∧
    readBufSize < c8frame.length ∧
    ((channelRead c8frame).length ≤ readBufSize ∧
      rspamd_log_helper_read [⟨7, false⟩] (.bytes (channelRead c8frame)) =
        ⟨.badLength (readU32LE c8frame 0)
            ((readBufSize - headerSize) / symbolResultSize), [],
         [LogLine.warnBadLength (readU32LE c8frame 0)
            ((readBufSize - headerSize) / symbolResultSize)]⟩) :=
  ⟨by decide, by decide,
    C8_oversized_truncated [⟨7, false⟩] c8frame (by decide) (by decide)⟩

/-- Claim C9: a frame of exactly `header_size` bytes declaring zero symbols is
valid: it is dispatched to every registered handler, each receiving the
frame's score, required score and settings id together with an empty result
sequence. -/
theorem C9_empty_frame (scripts : List Handler) (b : List Nat)
    (hlen : b.length = headerSize) (hn : readU32LE b 0 = 0) :
    rspamd_log_helper_read scripts (.bytes b) =
      ⟨.dispatched (parseSum b 0),
       scripts.map (fun sc => mkInvocation sc (parseSum b 0)),
       (dispatchEvent scripts (parseSum b 0)).2⟩ ∧
    (parseSum b 0).results = [] := by
  have hv : validFrame b := ⟨le_of_eq hlen.symm, by rw [hn, hlen]; simp⟩
  have hrd := read_dispatches scripts b hv
  rw [hn] at hrd
  exact ⟨by rw [hrd, dispatchEvent_fst], rfl⟩

/-- Claim C9, witness: the 32-byte all-zero frame with two handlers, one
failing. -/
theorem C9_empty_frame_witness :
    (List.replicate 32 0 : List Nat).length = headerSize ∧
    readU32LE (List.replicate 32 0) 0 = 0 ∧
    (rspamd_log_helper_read [⟨1, false⟩, ⟨2, true⟩] (.bytes (List.replicate 32 0)) =
        ⟨.dispatched (parseSum (List.replicate 32 0) 0),
         ([⟨1, false⟩, ⟨2, true⟩] : List Handler).map
           (fun sc => mkInvocation sc (parseSum (List.replicate 32 0) 0)),
         (dispatchEvent [⟨1, false⟩, ⟨2, true⟩] (parseSum (List.replicate 32 0) 0)).2⟩ ∧
      (parseSum (List.replicate 32 0) 0).results = []) :=
  ⟨by decide, by decide,
    C9_empty_frame [⟨1, false⟩, ⟨2, true⟩] (List.replicate 32 0) (by decide) (by decide)⟩

end LogHelper
